import Mathlib

/-!
Verification development for the Chinook text-to-SQL repository.

The repository contains several near-identical variants of the same
question -> SQL -> execution -> answer pipeline.  We shallowly embed the
variants the claims refer to:

* `Agent`       - agent.py        (ChinookDatabase.execute_query, the three
                  LangGraph nodes, should_execute_sql, run_query)
* `TextToSQL`   - text_to_sql_agent.py (TextToSQLAgent.generate_sql,
                  execute_sql, generate_response, should_continue, query)
* `SQLAgent`    - sql_agent.py    (execute_sql_node, generate_response_node)
* `AgentSimple` - agent_simple.py (the LangGraph path: sql_generation_node,
                  sql_execution_node, response_generation_node, query_database)
* `Database`    - database.py     (ChinookDatabase.execute_query)

The sqlite3 storage engine and the LLM inference capability are external
collaborators; they are modelled as explicit function parameters (an
`Engine` mapping a query string and a database state to a cursor reply,
and inference stubs of type `Except String _` whose `error` constructor
models a raised exception).  Each embedded executor additionally returns
the list of query texts it passed to the engine, so that "the query was
(never) executed against the storage engine" is directly statable.

Python strings with a single-quote character in them are assembled with
`sqc` (the quote character) because the development avoids quote literals.
-/

set_option autoImplicit false

/-- The single-quote character, used to assemble Python string literals
that contain it. -/
def sqc : String := String.singleton (Char.ofNat 39)

/-- Python `str.lower()` (ASCII, which is all the sources use). -/
def pyLower (s : String) : String := ⟨s.data.map Char.toLower⟩

/-- Python `str.upper()` (ASCII, which is all the sources use). -/
def pyUpper (s : String) : String := ⟨s.data.map Char.toUpper⟩

/-- Whitespace test used by Python `str.strip()`. -/
def isPySpace (c : Char) : Bool := c = ' ' || c = '\t' || c = '\n' || c = '\r'

/-- Python `str.strip()`: drop whitespace from both ends. -/
def pyStrip (s : String) : String :=
  ⟨((s.data.dropWhile isPySpace).reverse.dropWhile isPySpace).reverse⟩

/-- Python `str.startswith(p)`. -/
def pyStartsWith (s p : String) : Bool := p.data.isPrefixOf s.data

/-- Occurrence of `sub` as a contiguous sublist of `s` (Python `sub in s`). -/
def occursIn (sub : List Char) : List Char → Bool
  | [] => sub.isEmpty
  | c :: t => sub.isPrefixOf (c :: t) || occursIn sub t

/-- Python `sub in s` on strings. -/
def pyContains (s sub : String) : Bool := occursIn sub.data s.data

/-- Helper for Python `str.replace` on character lists; the fuel argument
is instantiated with the length of the subject and only bounds the
recursion. -/
def pyReplaceList (sub repl : List Char) : Nat → List Char → List Char
  | 0, s => s
  | _ + 1, [] => []
  | fuel + 1, c :: t =>
    if !sub.isEmpty && sub.isPrefixOf (c :: t) then
      repl ++ pyReplaceList sub repl fuel (List.drop sub.length (c :: t))
    else
      c :: pyReplaceList sub repl fuel t

/-- Python `s.replace(sub, repl)` (leftmost, non-overlapping). -/
def pyReplace (s sub repl : String) : String :=
  ⟨pyReplaceList sub.data repl.data s.data.length s.data⟩

/-- Python `sep.join(parts)`. -/
def joinSep (sep : String) : List String → String
  | [] => ""
  | [x] => x
  | x :: y :: t => x ++ sep ++ joinSep sep (y :: t)

/-- Uniform representation of the values the storage engine returns
(numbers, text, null); the sources render them with `str(x)`. -/
inductive SqlValue where
  | vInt (n : Int)
  | vStr (s : String)
  | vNull
deriving DecidableEq, Repr

/-- A Python dictionary with string keys, as an insertion-ordered
association list (the representation Python dictionaries guarantee). -/
abbrev PyDict := List (String × SqlValue)

/-- Python dictionary assignment `d[k] = v`: updates the value in place if
the key is present, otherwise appends the pair. -/
def pyDictInsert : PyDict → String → SqlValue → PyDict
  | [], k, v => [(k, v)]
  | (k', v') :: rest, k, v =>
    if k' = k then (k', v) :: rest else (k', v') :: pyDictInsert rest k v

/-- Build a Python dictionary from a pair list, later pairs overwriting
earlier ones with the same key (`dict(pairs)`). -/
def pyDictOfPairs (ps : List (String × SqlValue)) : PyDict :=
  ps.foldl (fun d p => pyDictInsert d p.1 p.2) []

/-- Python `dict(zip(cols, vals))`, the row conversion all executors use
(`zip` truncates to the shorter sequence; duplicate column names
collapse, the last value winning). -/
def pyDictZip (cols : List String) (vals : List SqlValue) : PyDict :=
  pyDictOfPairs (cols.zip vals)

/-- Python `d.get(k)`: the value at `k`, if present. -/
def pyDictGet (d : PyDict) (k : String) : Option SqlValue :=
  (d.find? (fun p => p.1 = k)).map (fun p => p.2)

/-- Modelled from the spec: the stored dataset held by the external
storage engine (spec section 1 places the engine itself out of scope;
section 6 gives its interface).  Two tables suffice for the claims. -/
structure DbState where
  customers : List (List SqlValue)
  artists : List (List SqlValue)
deriving DecidableEq, Repr

/-- Modelled from the spec: one `cursor.execute` interaction with the
storage engine.  `result` is `error` when the engine raises, otherwise the
column names of `cursor.description` (`none` for statements without a
result shape, such as DELETE) together with the `fetchall()` rows;
`post` is the connection state after the call. -/
structure CursorReply where
  result : Except String (Option (List String) × List (List SqlValue))
  post : DbState

/-- Modelled from the spec: the storage engine interface
`execute(query) -> rows` of section 6, as a function from query text and
current state to a cursor reply. -/
def Engine : Type := String → DbState → CursorReply

namespace Agent

/-- Structured output shape for SQL generation (class SQLQuery,
agent.py). -/
structure SQLQuery where
  sql_query : String
  confidence : String
  explanation : String
deriving DecidableEq, Repr

/-- Result of ChinookDatabase.execute_query (agent.py): either the Python
dict with key "error", or the list of row dictionaries. -/
inductive ExecResult where
  | errorDict (msg : String)
  | rowsList (rows : List PyDict)
deriving DecidableEq, Repr

/-- Number of rows of an execution result (0 for the error dictionary). -/
def execRowCount : ExecResult → Nat
  | .errorDict _ => 0
  | .rowsList rows => rows.length

/-- The security check of ChinookDatabase.execute_query (agent.py line
59): `query.strip().upper().startswith('SELECT')`. -/
def startsWithSelect (q : String) : Bool :=
  pyStartsWith (pyUpper (pyStrip q)) "SELECT"

/-- ChinookDatabase.execute_query (agent.py lines 55-74).  The third
component records the query texts passed to `cursor.execute`.  The whole
body sits in a `try/except Exception`, so the function always returns a
value: engine errors become the error dictionary.  (`cursor.description`
being `None` would also raise inside the `try` and become an error
dictionary; for a SELECT it is always present.) -/
def execute_query (e : Engine) (q : String) (db : DbState) :
    ExecResult × DbState × List String :=
  if !startsWithSelect q then
    (.errorDict "Only SELECT queries are allowed", db, [])
  else
    match e q db with
    | ⟨.error msg, db'⟩ => (.errorDict msg, db', [q])
    | ⟨.ok (none, _), db'⟩ =>
      (.errorDict "TypeError: NoneType object is not iterable", db', [q])
    | ⟨.ok (some cols, rows), db'⟩ =>
      (.rowsList (rows.map (pyDictZip cols)), db', [q])

/-- State for the text-to-SQL agent (class TextToSQLState, agent.py);
messages are kept as their content strings, `sql_result` is `none` for
Python `None`. -/
structure AgentState where
  messages : List String
  user_query : String
  sql_query : String
  sql_result : Option ExecResult
  final_answer : String
deriving DecidableEq, Repr

/-- The refusal text of agent.py ("I don't know the answer to that
question."), also used by text_to_sql_agent.py. -/
def idkAnswer : String :=
  "I don" ++ sqc ++ "t know the answer to that question."

/-- The relevance heuristic substring ("don't know") checked by
sql_generation_node against the lowercased explanation. -/
def dontKnowStr : String := "don" ++ sqc ++ "t know"

/-- sql_generation_node (agent.py lines 144-167).  The inference stub
`gen` models `structured_llm.invoke`; its `error` case models a raised
exception, which the node does not catch and therefore propagates. -/
def sql_generation_node (gen : Except String SQLQuery) (st : AgentState) :
    Except String AgentState :=
  match gen with
  | .error err => .error err
  | .ok r =>
    if pyContains (pyLower r.explanation) dontKnowStr || r.confidence = "Low" then
      .ok { st with sql_query := "", messages := st.messages ++ [idkAnswer] }
    else
      .ok { st with sql_query := r.sql_query,
                    messages := st.messages ++ ["Generated SQL: " ++ r.sql_query] }

/-- sql_execution_node (agent.py lines 170-180). -/
def sql_execution_node (e : Engine) (st : AgentState) (db : DbState) :
    AgentState × DbState × List String :=
  if st.sql_query = "" then
    ({ st with sql_result := none }, db, [])
  else
    let out := execute_query e st.sql_query db
    let desc := match out.1 with
      | .rowsList rows => toString rows.length
      | .errorDict _ => "error"
    ({ st with sql_result := some out.1,
               messages := st.messages ++ ["Query executed, got " ++ desc ++ " results"] },
     out.2.1, out.2.2)

/-- response_generation_node (agent.py lines 183-214).  `synth` models a
successful `model.invoke` reply as a function of the data interpolated
into the prompt; the boolean records whether the inference capability was
invoked.  Python truthiness: `None` and the empty list are falsy, the
error dictionary is truthy and hits the `"error" in ...` branch. -/
def response_generation_node (synth : String → String → ExecResult → String)
    (st : AgentState) : AgentState × Bool :=
  match st.sql_result with
  | none => ({ st with final_answer := idkAnswer }, false)
  | some (.rowsList []) => ({ st with final_answer := idkAnswer }, false)
  | some (.errorDict m) =>
    ({ st with final_answer := "I encountered an error processing your query.",
               sql_result := some (.errorDict m) }, false)
  | some (.rowsList (r :: rs)) =>
    let resp := synth st.user_query st.sql_query (.rowsList (r :: rs))
    ({ st with final_answer := resp, messages := st.messages ++ [resp] }, true)

/-- should_execute_sql (agent.py lines 217-222): route on the truthiness
of `sql_query`. -/
def should_execute_sql (st : AgentState) : String :=
  if st.sql_query ≠ "" then "execute_sql" else "generate_response"

/-- The observable outcome of one run_query invocation: the returned
answer, the final graph state, the database state afterwards, the query
texts passed to the engine, and whether synthesis inference was
invoked. -/
structure RunOutcome where
  answer : String
  state : AgentState
  db : DbState
  engineCalls : List String
  synthCalled : Bool
deriving DecidableEq, Repr

/-- run_query (agent.py lines 251-262) together with the compiled graph
wiring (lines 226-248): START -> generate_sql -> (conditional on
should_execute_sql) -> execute_sql? -> generate_response -> END.  An
uncaught exception inside a node surfaces as `Except.error`. -/
def run_query (gen : Except String SQLQuery)
    (synth : String → String → ExecResult → String)
    (e : Engine) (q : String) (db : DbState) : Except String RunOutcome :=
  let st0 : AgentState :=
    { messages := [q], user_query := q, sql_query := "",
      sql_result := none, final_answer := "" }
  match sql_generation_node gen st0 with
  | .error err => .error err
  | .ok st1 =>
    if should_execute_sql st1 = "execute_sql" then
      let out := sql_execution_node e st1 db
      let fin := response_generation_node synth out.1
      .ok ⟨fin.1.final_answer, fin.1, out.2.1, out.2.2, fin.2⟩
    else
      let fin := response_generation_node synth st1
      .ok ⟨fin.1.final_answer, fin.1, db, [], fin.2⟩

end Agent

namespace TextToSQL

/-- State for the agent (class AgentState, text_to_sql_agent.py). -/
structure AgentState where
  user_query : String
  sql_query : String
  sql_result : List PyDict
  final_response : String
  error : String
deriving DecidableEq, Repr

/-- TextToSQLAgent.generate_sql (text_to_sql_agent.py lines 94-131).  The
stub `gen` models `self.llm.invoke(prompt)`: `ok content` is the reply
text, `error` a raised exception, which the surrounding `try/except`
converts into the error field. -/
def generate_sql (gen : Except String String) (st : AgentState) : AgentState :=
  match gen with
  | .ok content =>
    let sql0 := pyStrip content
    if pyContains (pyUpper sql0) "CANNOT_ANSWER" then
      { st with error := "Query cannot be answered with available data" }
    else
      { st with sql_query := pyStrip (pyReplace (pyReplace sql0 "```sql" "") "```" "") }
  | .error err => { st with error := "Error generating SQL: " ++ err }

/-- TextToSQLAgent.execute_sql (text_to_sql_agent.py lines 133-156).  No
safety check of any kind: whatever `sql_query` holds is passed to
`cursor.execute` (third component of the return value).  Rows arrive as
`sqlite3.Row` and are converted with `dict(row)`, which keys them by the
engine-reported column names. -/
def execute_sql (e : Engine) (st : AgentState) (db : DbState) :
    AgentState × DbState × List String :=
  if st.error ≠ "" then (st, db, [])
  else if st.sql_query = "" then
    ({ st with error := "No SQL query to execute" }, db, [])
  else
    match e st.sql_query db with
    | ⟨.error m, db'⟩ =>
      ({ st with error := "SQL execution error: " ++ m }, db', [st.sql_query])
    | ⟨.ok (desc, rows), db'⟩ =>
      ({ st with sql_result := rows.map (pyDictZip (desc.getD [])) }, db', [st.sql_query])

/-- TextToSQLAgent.generate_response (text_to_sql_agent.py lines
158-188).  `synth` models `self.llm.invoke(prompt)` for the synthesis
call; its `error` case is caught by the `try/except` and written into the
final response.  The boolean records whether the inference capability was
invoked. -/
def generate_response (synth : Except String String) (st : AgentState) :
    AgentState × Bool :=
  if st.error ≠ "" then
    ({ st with final_response := Agent.idkAnswer }, false)
  else if st.sql_result = [] then
    ({ st with final_response := "No results found for your query." }, false)
  else
    match synth with
    | .ok c => ({ st with final_response := pyStrip c }, true)
    | .error err =>
      ({ st with final_response := "Error generating response: " ++ err }, true)

/-- The `"sql_result" not in state` membership test inside
should_continue: `query()` builds the initial state with the `sql_result`
key present, so under the compiled graph the test is always false. -/
def sqlResultKeyAbsent : Bool := false

/-- TextToSQLAgent.should_continue (text_to_sql_agent.py lines 190-198).
Because the state always carries the `sql_result` key, the third branch
never fires and the node after generate_sql is always generate_response
(or the unmapped "generate_sql" target when the cleaned query is empty
without an error). -/
def should_continue (st : AgentState) : String :=
  if st.error ≠ "" then "generate_response"
  else if st.sql_query = "" then "generate_sql"
  else if st.sql_result = [] && sqlResultKeyAbsent then "execute_sql"
  else "generate_response"

/-- The observable outcome of one TextToSQLAgent.query invocation. -/
structure QueryOutcome where
  final_response : String
  state : AgentState
  db : DbState
  engineCalls : List String
  synthCalled : Bool
deriving DecidableEq, Repr

/-- TextToSQLAgent.query (text_to_sql_agent.py lines 224-237) with the
graph wiring of create_graph (lines 200-222): entry generate_sql, then
the conditional edge keyed by should_continue with path map
["execute_sql" -> execute_sql, "generate_response" -> generate_response].
A should_continue value outside the path map (the "generate_sql" case)
raises inside the graph runtime and surfaces as `Except.error`. -/
def query (gen synth : Except String String) (e : Engine) (q : String)
    (db : DbState) : Except String QueryOutcome :=
  let st0 : AgentState :=
    { user_query := q, sql_query := "", sql_result := [],
      final_response := "", error := "" }
  let st1 := generate_sql gen st0
  match should_continue st1 with
  | "execute_sql" =>
    let out := execute_sql e st1 db
    let fin := generate_response synth out.1
    .ok ⟨fin.1.final_response, fin.1, out.2.1, out.2.2, fin.2⟩
  | "generate_response" =>
    let fin := generate_response synth st1
    .ok ⟨fin.1.final_response, fin.1, db, [], fin.2⟩
  | _ => .error "Branch condition returned unknown target"

end TextToSQL

namespace SQLAgent

/-- State of the SQL agent (class AgentState, sql_agent.py); messages are
kept as content strings. -/
structure AgentState where
  messages : List String
  query : String
  sql_query : String
  sql_result : String
  schema_info : String
  error : String
deriving DecidableEq, Repr

/-- Python `str(x) if x is not None else "NULL"` over the uniform value
representation. -/
def valueToStr : SqlValue → String
  | .vInt n => toString n
  | .vStr s => s
  | .vNull => "NULL"

/-- The dashed separator line `"-" * len(header)`. -/
def dashLine (n : Nat) : String := ⟨List.replicate n (Char.ofNat 45)⟩

/-- SQLAgent._execute_sql_node (sql_agent.py lines 137-165).  Zero rows
are rendered as the string "No results found."; otherwise a header line,
a dashed line and one formatted line per row. -/
def execute_sql_node (e : Engine) (st : AgentState) (db : DbState) :
    AgentState × DbState × List String :=
  if st.sql_query = "" || st.error ≠ "" then
    ({ st with sql_result := "" }, db, [])
  else
    match e st.sql_query db with
    | ⟨.error m, db'⟩ =>
      ({ st with sql_result := "", error := "SQL execution error: " ++ m },
       db', [st.sql_query])
    | ⟨.ok (none, _), db'⟩ =>
      ({ st with sql_result := "",
                 error := "SQL execution error: TypeError: NoneType object is not iterable" },
       db', [st.sql_query])
    | ⟨.ok (some cols, rows), db'⟩ =>
      let header := joinSep " | " cols
      let sqlRes :=
        if rows = [] then "No results found."
        else joinSep "\n"
          ([header, dashLine header.length] ++
            rows.map (fun r => joinSep " | " (r.map valueToStr)))
      ({ st with sql_result := sqlRes, error := "" }, db', [st.sql_query])

/-- The longer refusal of sql_agent.py for questions marked
unanswerable. -/
def onlyChinookAnswer : String :=
  "I don" ++ sqc ++
  "t know the answer to that question. I can only help with questions that can be answered using the Chinook music database."

/-- SQLAgent._generate_response_node (sql_agent.py lines 167-209).  On
the error-free path the node always delegates to `self.llm.invoke`
(`synth`); that call is not wrapped in a try, so a stub error
propagates.  The boolean records whether inference was invoked. -/
def generate_response_node (synth : Except String String) (st : AgentState) :
    Except String (AgentState × Bool) :=
  if st.error ≠ "" then
    let resp :=
      if pyContains st.error "cannot be answered" then onlyChinookAnswer
      else Agent.idkAnswer
    .ok ({ st with messages := st.messages ++ [resp] }, false)
  else
    match synth with
    | .error err => .error err
    | .ok c => .ok ({ st with messages := st.messages ++ [c] }, true)

end SQLAgent

namespace AgentSimple

/-- Structured output shape (class SQLQuery, agent_simple.py). -/
structure SQLQuery where
  query : String
  reasoning : String
deriving DecidableEq, Repr

/-- State (class State, agent_simple.py); messages as content strings. -/
structure State where
  messages : List String
  query : String
  sql_query : String
  sql_result : List PyDict
  natural_response : String
  schema_info : String
deriving DecidableEq, Repr

/-- The sentinel query agent_simple.py instructs the generator to emit
for irrelevant questions: `SELECT 'IRRELEVANT_QUERY' as result;`. -/
def sentinelQuery : String :=
  "SELECT " ++ sqc ++ "IRRELEVANT_QUERY" ++ sqc ++ " as result;"

/-- The refusal agent_simple.py returns once the sentinel row is
detected in the executed results. -/
def simpleRefusal : String :=
  "I don" ++ sqc ++
  "t know the answer to that question. I can only answer questions about the music database including artists, albums, tracks, customers, and sales data."

/-- The refusal agent_simple.py returns for an empty result set. -/
def noDataRefusal : String :=
  "I don" ++ sqc ++
  "t know the answer to that question based on the available data."

/-- sql_generation_node (agent_simple.py lines 220-250).  The structured
inference call is not wrapped in a try; a stub error propagates. -/
def sql_generation_node (gen : Except String SQLQuery) (st : State) :
    Except String State :=
  match gen with
  | .error err => .error err
  | .ok r =>
    .ok { st with sql_query := r.query,
                  messages := st.messages ++ ["Generated SQL: " ++ r.query] }

/-- sql_execution_node (agent_simple.py lines 252-278): execute whatever
was generated, no gate; exceptions collapse to an empty result list. -/
def sql_execution_node (e : Engine) (st : State) (db : DbState) :
    State × DbState × List String :=
  match e st.sql_query db with
  | ⟨.error m, db'⟩ =>
    ({ st with sql_result := [],
               messages := st.messages ++ ["SQL execution error: " ++ m] },
     db', [st.sql_query])
  | ⟨.ok (desc, rows), db'⟩ =>
    let rd := rows.map (pyDictZip (desc.getD []))
    ({ st with sql_result := rd,
               messages := st.messages ++
                 ["Query executed successfully. Found " ++ toString rd.length ++ " results."] },
     db', [st.sql_query])

/-- response_generation_node (agent_simple.py lines 280-318): detect the
sentinel row, then the empty result set, otherwise delegate to inference
(`synth`, modelled as a successful reply; the boolean records whether it
was invoked). -/
def response_generation_node (synth : String → String → List PyDict → String)
    (st : State) : State × Bool :=
  if st.sql_result.length = 1 &&
      pyDictGet (st.sql_result.headD []) "result" = some (.vStr "IRRELEVANT_QUERY") then
    ({ st with natural_response := simpleRefusal,
               messages := st.messages ++ ["Query was irrelevant to the database."] },
     false)
  else if st.sql_result = [] then
    ({ st with natural_response := noDataRefusal,
               messages := st.messages ++ ["No results found."] }, false)
  else
    let resp := synth st.query st.sql_query st.sql_result
    ({ st with natural_response := resp,
               messages := st.messages ++ ["Generated response: " ++ resp] }, true)

/-- query_database (agent_simple.py lines 333-345) with the graph wiring
of lines 320-331: START -> sql_generation -> sql_execution ->
response_generation -> END, all edges unconditional. -/
def query_database (gen : Except String SQLQuery)
    (synth : String → String → List PyDict → String)
    (e : Engine) (q schema : String) (db : DbState) :
    Except String (String × DbState × List String × Bool) :=
  let st0 : State :=
    { messages := [], query := q, sql_query := "", sql_result := [],
      natural_response := "", schema_info := schema }
  match sql_generation_node gen st0 with
  | .error err => .error err
  | .ok st1 =>
    let out := sql_execution_node e st1 db
    let fin := response_generation_node synth out.1
    .ok (fin.1.natural_response, out.2.1, out.2.2, fin.2)

end AgentSimple

namespace Database

/-- ChinookDatabase.execute_query (database.py lines 101-116).  `conn`
is `none` before initialize_database has run.  Engine errors re-raise as
a wrapped exception (`Except.error`); there is no statement gate of any
kind.  The second component is the connection state afterwards, the third
the query texts passed to the engine. -/
def execute_query (e : Engine) (sql : String) (conn : Option DbState) :
    Except String (List PyDict) × Option DbState × List String :=
  match conn with
  | none => (.error "Database not initialized", none, [])
  | some db =>
    match e sql db with
    | ⟨.error m, db'⟩ => (.error ("SQL execution error: " ++ m), some db', [sql])
    | ⟨.ok (desc, rows), db'⟩ =>
      (.ok (rows.map (pyDictZip (desc.getD []))), some db', [sql])

end Database

/-- Artist rows of the concrete test dataset (column: Name). -/
def artistRows : List (List SqlValue) := [[.vStr "AC DC"], [.vStr "Accept"]]

/-- Customer rows of the concrete test dataset (columns: CustomerId,
FirstName). -/
def customerRows : List (List SqlValue) :=
  [[.vInt 1, .vStr "Luis"], [.vInt 2, .vStr "Leonie"]]

/-- The concrete dataset used by the counterexamples and witnesses. -/
def db0 : DbState := { customers := customerRows, artists := artistRows }

/-- A SELECT-prefixed text that also contains a second ;-separated DROP
statement. -/
def multiStmtQuery : String := "SELECT 1; DROP TABLE Artist"

/-- A SELECT whose engine-reported column names collide. -/
def dupColQuery : String := "SELECT 1 AS a, 2 AS a"

/-- A SELECT returning eleven rows, more than the example cap of ten the
spec mentions for result sets. -/
def elevenRowQuery : String := "SELECT N FROM Nums"

/-- A SELECT matching no rows. -/
def zeroRowQuery : String := "SELECT Name FROM Artist WHERE ArtistId = -1"

/-- Modelled from the spec: a concrete instance of the external storage
engine (spec sections 1 and 6), covering the handful of statements the
concrete scenarios use.  SELECT statements leave the state unchanged;
`DELETE FROM Customer` removes every Customer row and, like sqlite3,
reports no description and no rows; a text containing two ;-separated
statements raises, as sqlite3 `cursor.execute` does; anything else raises
a syntax error. -/
def chinookEngine : Engine := fun q db =>
  if q = "DELETE FROM Customer" then
    ⟨.ok (none, []), { db with customers := [] }⟩
  else if q = AgentSimple.sentinelQuery then
    ⟨.ok (some ["result"], [[.vStr "IRRELEVANT_QUERY"]]), db⟩
  else if q = "SELECT Name FROM Artist" then
    ⟨.ok (some ["Name"], db.artists), db⟩
  else if q = multiStmtQuery then
    ⟨.error "You can only execute one statement at a time.", db⟩
  else if q = dupColQuery then
    ⟨.ok (some ["a", "a"], [[.vInt 1, .vInt 2]]), db⟩
  else if q = elevenRowQuery then
    ⟨.ok (some ["N"], (List.range 11).map (fun i => [SqlValue.vInt i])), db⟩
  else if q = zeroRowQuery then
    ⟨.ok (some ["Name"], []), db⟩
  else
    ⟨.error "near unrecognized token: syntax error", db⟩

/-- A synthesis stub for agent.py runs: a fixed function of the prompt
data. -/
def synthStub : String → String → Agent.ExecResult → String :=
  fun _ _ _ => "There are 2 artists in the database."

/-- A synthesis stub for agent_simple.py runs. -/
def synthStubSimple : String → String → List PyDict → String :=
  fun _ _ _ => "Here are the results."

/-- A generation stub reply for agent.py that yields an answerable
query. -/
def genArtists : Agent.SQLQuery :=
  { sql_query := "SELECT Name FROM Artist", confidence := "High",
    explanation := "Lists all artist names." }

/-- A generation stub reply for agent.py whose explanation carries the
sentinel relevance phrase. -/
def genUnanswerable : Agent.SQLQuery :=
  { sql_query := "", confidence := "High",
    explanation := "I don" ++ sqc ++ "t know the answer to that question." }

/-- A concrete sql_agent.py state about to execute a query matching no
rows. -/
def saStateZero : SQLAgent.AgentState :=
  { messages := [], query := "Which artists have id -1?",
    sql_query := zeroRowQuery, sql_result := "", schema_info := "", error := "" }

/-- A concrete text_to_sql_agent.py state holding an executed, non-empty
result set, about to enter synthesis. -/
def ttsStateRows : TextToSQL.AgentState :=
  { user_query := "How many artists are there?",
    sql_query := "SELECT Name FROM Artist",
    sql_result := [[("Name", .vStr "AC DC")], [("Name", .vStr "Accept")]],
    final_response := "", error := "" }

/-- The database state after a run_query invocation (the input state when
the run raised). -/
def runPostDb (r : Except String Agent.RunOutcome) (db : DbState) : DbState :=
  match r with
  | .ok o => o.db
  | .error _ => db

/-- The database state after a TextToSQLAgent.query invocation. -/
def ttsPostDb (r : Except String TextToSQL.QueryOutcome) (db : DbState) : DbState :=
  match r with
  | .ok o => o.db
  | .error _ => db

deriving instance DecidableEq for Except

/-- A nonempty string prefixed onto anything stays nonempty. -/
theorem append_ne_empty_left (s t : String) (h : s ≠ "") : s ++ t ≠ "" := by
  intro heq
  apply h
  have hd : s.data ++ t.data = [] := by
    have := congrArg String.data heq
    simpa using this
  have : s.data = [] := (List.append_eq_nil.mp hd).1
  cases s
  simp_all

/-- Python dictionary assignment of a fresh key appends the pair. -/
theorem pyDictInsert_of_not_mem (d : PyDict) (k : String) (v : SqlValue)
    (h : k ∉ d.map Prod.fst) : pyDictInsert d k v = d ++ [(k, v)] := by
  induction d with
  | nil => rfl
  | cons p rest ih =>
    obtain ⟨k', v'⟩ := p
    simp only [List.map_cons, List.mem_cons] at h
    push_neg at h
    simp [pyDictInsert, Ne.symm h.1, ih h.2]

/-- Folding dictionary assignments of pairwise-fresh keys over a
dictionary appends them in order. -/
theorem pyDict_foldl_eq_append (ps : List (String × SqlValue)) :
    ∀ d : PyDict, (d.map Prod.fst ++ ps.map Prod.fst).Nodup →
      ps.foldl (fun a p => pyDictInsert a p.1 p.2) d = d ++ ps := by
  induction ps with
  | nil => intro d _; simp
  | cons p ps ih =>
    intro d h
    have hdisj := (List.nodup_append.mp h).2.2
    have hmem : p.1 ∉ d.map Prod.fst := by
      intro hin
      exact hdisj hin (by simp)
    have hins : pyDictInsert d p.1 p.2 = d ++ [p] := pyDictInsert_of_not_mem d p.1 p.2 hmem
    have h' : ((d ++ [p]).map Prod.fst ++ ps.map Prod.fst).Nodup := by
      simpa [List.append_assoc] using h
    calc (p :: ps).foldl (fun a q => pyDictInsert a q.1 q.2) d
        = ps.foldl (fun a q => pyDictInsert a q.1 q.2) (d ++ [p]) := by
          simp [List.foldl_cons, hins]
      _ = (d ++ [p]) ++ ps := ih (d ++ [p]) h'
      _ = d ++ p :: ps := by simp

/-- With pairwise-distinct column names and at least as many values,
`dict(zip(cols, vals))` is exactly the column-value pairing in order. -/
theorem pyDictZip_eq_zip (cols : List String) (r : List SqlValue)
    (hnd : cols.Nodup) (hlen : cols.length ≤ r.length) :
    pyDictZip cols r = cols.zip r := by
  unfold pyDictZip pyDictOfPairs
  have hkeys : (cols.zip r).map Prod.fst = cols := List.map_fst_zip cols r hlen
  have := pyDict_foldl_eq_append (cols.zip r) [] (by simpa [hkeys] using hnd)
  simpa using this

/-- The agent.py executor never changes the connection state when the
engine leaves state unchanged on SELECT-prefixed statements (which
sqlite3 does: a single SELECT reads only, and a multi-statement text
raises before executing anything). -/
theorem execute_query_post (e : Engine)
    (hSel : ∀ q db, Agent.startsWithSelect q = true → (e q db).post = db)
    (q : String) (db : DbState) : (Agent.execute_query e q db).2.1 = db := by
  unfold Agent.execute_query
  by_cases h : Agent.startsWithSelect q = true
  · rcases hrep : e q db with ⟨res, post⟩
    have hpost := hSel q db h
    rw [hrep] at hpost
    subst hpost
    simp only [h, Bool.not_true, Bool.false_eq_true, if_false]
    rcases res with m | ⟨desc, rows⟩
    · simp
    · rcases desc with _ | cols <;> simp
  · simp at h
    simp [h]

/-- The concrete engine model leaves the state unchanged on every
SELECT-prefixed statement: its only mutating entry is `DELETE FROM
Customer`, which is not SELECT-prefixed. -/
theorem chinookEngine_select_pure :
    ∀ q db, Agent.startsWithSelect q = true → (chinookEngine q db).post = db := by
  intro q db h
  unfold chinookEngine
  by_cases h1 : q = "DELETE FROM Customer"
  · subst h1; exact absurd h (by decide)
  · simp only [if_neg h1]
    repeat' split
    all_goals rfl

/-- should_continue (text_to_sql_agent.py) can never route to the
execute_sql node: the initial state carries the `sql_result` key, so the
membership test in its third branch is always false. -/
theorem tts_should_continue_ne_execute (st : TextToSQL.AgentState) :
    TextToSQL.should_continue st ≠ "execute_sql" := by
  unfold TextToSQL.should_continue TextToSQL.sqlResultKeyAbsent
  split
  · decide
  · split
    · decide
    · simp

/-- TextToSQLAgent.query never changes the database state (its graph
never reaches the executor). -/
theorem tts_query_post_db (tgen tsynth : Except String String) (e : Engine)
    (q : String) (db : DbState) :
    ttsPostDb (TextToSQL.query tgen tsynth e q db) db = db := by
  unfold TextToSQL.query
  dsimp only
  split
  · next heq => exact absurd heq (tts_should_continue_ne_execute _)
  · rfl
  · rfl

/-- run_query (agent.py) never changes the database state, for any
engine that is pure on SELECT-prefixed statements. -/
theorem run_query_post_db (e : Engine)
    (hSel : ∀ q db, Agent.startsWithSelect q = true → (e q db).post = db)
    (gen : Except String Agent.SQLQuery)
    (synth : String → String → Agent.ExecResult → String)
    (q : String) (db : DbState) :
    runPostDb (Agent.run_query gen synth e q db) db = db := by
  unfold Agent.run_query
  cases gen with
  | error err => rfl
  | ok r =>
    unfold Agent.sql_generation_node
    by_cases hc : (pyContains (pyLower r.explanation) Agent.dontKnowStr || r.confidence = "Low") = true
    · simp [hc, Agent.should_execute_sql, runPostDb]
    · by_cases hq : r.sql_query = ""
      · simp [hc, hq, Agent.should_execute_sql, runPostDb]
      · simp only [hc, Bool.false_eq_true, if_false, Agent.should_execute_sql, hq,
          ne_eq, not_false_iff, if_true, runPostDb]
        unfold Agent.sql_execution_node
        simp only [hq, if_neg]
        simp [execute_query_post e hSel r.sql_query db]

/-- The concrete engine reply for the artist-listing SELECT. -/
theorem chinookEngine_artist_query :
    chinookEngine "SELECT Name FROM Artist" db0 = ⟨.ok (some ["Name"], artistRows), db0⟩ := by
  have h1 : ¬ "SELECT Name FROM Artist" = "DELETE FROM Customer" := by decide
  have h2 : ¬ "SELECT Name FROM Artist" = AgentSimple.sentinelQuery := by decide
  simp [chinookEngine, h1, h2, db0, artistRows]

/-- C1 (amended): the only pre-execution gate in the repository is the
prefix check of ChinookDatabase.execute_query (agent.py): a query whose
stripped, uppercased text does not start with SELECT is rejected with the
error dictionary and is never passed to the storage engine, while every
query that does start with SELECT - including one that also contains
INSERT, UPDATE, DELETE, DROP or a second ;-separated statement - is
passed to the engine verbatim. -/
theorem C1_gate_checks_select_prefix_only (e : Engine) (q : String) (db : DbState) :
    (Agent.startsWithSelect q = false →
      Agent.execute_query e q db = (.errorDict "Only SELECT queries are allowed", db, [])) ∧
    (Agent.startsWithSelect q = true →
      (Agent.execute_query e q db).2.2 = [q]) := by
  constructor
  · intro h
    simp [Agent.execute_query, h]
  · intro h
    unfold Agent.execute_query
    rcases hrep : e q db with ⟨res, post⟩
    simp only [h, Bool.not_true, Bool.false_eq_true, if_false]
    rcases res with m | ⟨desc, rows⟩
    · simp
    · rcases desc with _ | cols <;> simp

/-- C1 witness: a plain DROP is rejected without reaching the engine,
while the SELECT-prefixed multi-statement text is passed through. -/
theorem C1_witness :
    (Agent.startsWithSelect "DROP TABLE Artist" = false ∧
      Agent.execute_query chinookEngine "DROP TABLE Artist" db0 =
        (.errorDict "Only SELECT queries are allowed", db0, [])) ∧
    (Agent.startsWithSelect multiStmtQuery = true ∧
      (Agent.execute_query chinookEngine multiStmtQuery db0).2.2 = [multiStmtQuery]) :=
  ⟨⟨by decide, (C1_gate_checks_select_prefix_only chinookEngine "DROP TABLE Artist" db0).1 (by decide)⟩,
   ⟨by decide, (C1_gate_checks_select_prefix_only chinookEngine multiStmtQuery db0).2 (by decide)⟩⟩

/-- C1 counterexample: a generated query containing DROP and a second
;-separated statement passes the gate of agent.py unrejected, and
answer() passes its text to the storage engine, contradicting the claim
that such queries are rejected before execution. -/
theorem C1_cex_multistatement_executed :
    pyContains multiStmtQuery "DROP" = true ∧
    pyContains multiStmtQuery ";" = true ∧
    (Agent.run_query
        (.ok { sql_query := multiStmtQuery, confidence := "High", explanation := "Counts rows." })
        synthStub chinookEngine "List one row and drop the Artist table" db0).map
      (fun o => o.engineCalls) = .ok [multiStmtQuery] := by
  refine ⟨by decide, by decide, by decide⟩

/-- C2 (amended): when the generation reply carries an unanswerable
relevance signal, run_query (agent.py) returns the fixed refusal text
with no engine call and no synthesis call; agent_simple.py also returns
its fixed refusal for the sentinel-marked generated query, but only
after executing the sentinel query against the engine. -/
theorem C2_unanswerable_signal_refusal (e : Engine)
    (synth : String → String → Agent.ExecResult → String)
    (q : String) (db : DbState) (r : Agent.SQLQuery)
    (h : pyContains (pyLower r.explanation) Agent.dontKnowStr = true ∨ r.confidence = "Low") :
    Agent.run_query (.ok r) synth e q db =
      .ok ⟨Agent.idkAnswer,
           { messages := [q, Agent.idkAnswer], user_query := q, sql_query := "",
             sql_result := none, final_answer := Agent.idkAnswer }, db, [], false⟩ ∧
    AgentSimple.query_database
        (.ok { query := AgentSimple.sentinelQuery, reasoning := "irrelevant" })
        synthStubSimple chinookEngine "What is the weather like today?" "" db0 =
      .ok (AgentSimple.simpleRefusal, db0, [AgentSimple.sentinelQuery], false) := by
  constructor
  · have hcond : (pyContains (pyLower r.explanation) Agent.dontKnowStr || r.confidence = "Low") = true := by
      rcases h with h | h
      · simp [h]
      · simp [h]
    unfold Agent.run_query Agent.sql_generation_node
    simp [hcond, Agent.should_execute_sql, Agent.response_generation_node]
  · decide

/-- C2 witness: a concrete generation reply whose explanation carries the
relevance phrase yields the refusal with no engine call. -/
theorem C2_witness :
    (pyContains (pyLower genUnanswerable.explanation) Agent.dontKnowStr = true ∨
      genUnanswerable.confidence = "Low") ∧
    Agent.run_query (.ok genUnanswerable) synthStub chinookEngine
        "What is the weather like today?" db0 =
      .ok ⟨Agent.idkAnswer,
           { messages := ["What is the weather like today?", Agent.idkAnswer],
             user_query := "What is the weather like today?", sql_query := "",
             sql_result := none, final_answer := Agent.idkAnswer }, db0, [], false⟩ :=
  haveI h : pyContains (pyLower genUnanswerable.explanation) Agent.dontKnowStr = true ∨
      genUnanswerable.confidence = "Low" := Or.inl (by decide)
  ⟨h, (C2_unanswerable_signal_refusal chinookEngine synthStub
        "What is the weather like today?" db0 genUnanswerable h).1⟩

/-- C2 counterexample: in agent_simple.py the unanswerable signal is
the sentinel generated query, and the pipeline executes that query
against the engine before refusing, contradicting the claim that the
Query Executor is never invoked for such questions. -/
theorem C2_cex_sentinel_query_executed :
    AgentSimple.query_database
        (.ok { query := AgentSimple.sentinelQuery, reasoning := "irrelevant" })
        synthStubSimple chinookEngine "What is the weather like today?" "" db0 =
      .ok (AgentSimple.simpleRefusal, db0, [AgentSimple.sentinelQuery], false) ∧
    [AgentSimple.sentinelQuery] ≠ ([] : List String) := by
  exact ⟨by decide, by decide⟩

/-- C3 (amended): the executor applies no row cap at all - a successful
execution returns exactly one dictionary per fetched row, with no
truncation flag and no recorded original count anywhere in the result. -/
theorem C3_all_rows_returned (e : Engine) (q : String) (db : DbState)
    (cols : List String) (rows : List (List SqlValue))
    (h1 : Agent.startsWithSelect q = true)
    (h2 : e q db = ⟨.ok (some cols, rows), db⟩) :
    (Agent.execute_query e q db).1 = .rowsList (rows.map (pyDictZip cols)) ∧
    Agent.execRowCount (Agent.execute_query e q db).1 = rows.length := by
  unfold Agent.execute_query
  simp [h1, h2, Agent.execRowCount]

/-- C3 witness: the artist SELECT returns both stored rows. -/
theorem C3_witness :
    (Agent.startsWithSelect "SELECT Name FROM Artist" = true ∧
      chinookEngine "SELECT Name FROM Artist" db0 = ⟨.ok (some ["Name"], artistRows), db0⟩) ∧
    Agent.execRowCount (Agent.execute_query chinookEngine "SELECT Name FROM Artist" db0).1 =
      artistRows.length :=
  ⟨⟨by decide, chinookEngine_artist_query⟩,
   (C3_all_rows_returned chinookEngine "SELECT Name FROM Artist" db0 ["Name"] artistRows
     (by decide) chinookEngine_artist_query).2⟩

/-- C3 counterexample: a query whose true result has eleven rows comes
back with all eleven rows, not with the ten the example cap of the spec
would require - no truncation happens. -/
theorem C3_cex_eleven_rows_uncapped :
    Agent.execRowCount (Agent.execute_query chinookEngine elevenRowQuery db0).1 = 11 ∧
    Agent.execRowCount (Agent.execute_query chinookEngine elevenRowQuery db0).1 ≠ 10 := by
  decide

/-- C4 (amended): in text_to_sql_agent.py a generation inference failure
is caught and collapses to the same fixed refusal as an unanswerable
question, with no engine call; in agent.py the generation inference call
is not guarded, so its failure escapes answer() as an unhandled fault. -/
theorem C4_generation_failure_paths (err : String)
    (synth : Except String String)
    (asynth : String → String → Agent.ExecResult → String)
    (e : Engine) (q : String) (db : DbState) :
    (TextToSQL.query (.error err) synth e q db).map (fun o => o.final_response) =
      .ok Agent.idkAnswer ∧
    (TextToSQL.query (.ok "CANNOT_ANSWER") synth e q db).map (fun o => o.final_response) =
      .ok Agent.idkAnswer ∧
    (TextToSQL.query (.error err) synth e q db).map (fun o => o.engineCalls) = .ok [] ∧
    Agent.run_query (.error err) asynth e q db = .error err := by
  have hne : ("Error generating SQL: " ++ err) ≠ "" :=
    append_ne_empty_left _ _ (by decide)
  have hcond : pyContains (pyUpper (pyStrip "CANNOT_ANSWER")) "CANNOT_ANSWER" = true := by decide
  have hne2 : ("Query cannot be answered with available data" : String) ≠ "" := by decide
  refine ⟨?_, ?_, ?_, rfl⟩
  · unfold TextToSQL.query TextToSQL.generate_sql
    simp [TextToSQL.should_continue, hne, TextToSQL.generate_response, Except.map]
  · unfold TextToSQL.query TextToSQL.generate_sql
    simp [hcond, TextToSQL.should_continue, hne2, TextToSQL.generate_response, Except.map]
  · unfold TextToSQL.query TextToSQL.generate_sql
    simp [TextToSQL.should_continue, hne, TextToSQL.generate_response, Except.map]

/-- C4 witness: concrete failing and unanswerable generation replies
produce the same refusal through the text_to_sql_agent pipeline. -/
theorem C4_witness :
    (TextToSQL.query (.error "Connection error") (.ok "fine") chinookEngine "q" db0).map
        (fun o => o.final_response) = .ok Agent.idkAnswer ∧
    (TextToSQL.query (.ok "CANNOT_ANSWER") (.ok "fine") chinookEngine "q" db0).map
        (fun o => o.final_response) = .ok Agent.idkAnswer :=
  ⟨(C4_generation_failure_paths "Connection error" (.ok "fine") synthStub chinookEngine "q" db0).1,
   (C4_generation_failure_paths "Connection error" (.ok "fine") synthStub chinookEngine "q" db0).2.1⟩

/-- C4 counterexample: in agent.py a generation inference failure
escapes answer() as an unhandled fault instead of collapsing to the
refusal. -/
theorem C4_cex_agent_generation_failure_escapes :
    Agent.run_query (.error "Connection error") synthStub chinookEngine
      "How many artists are there?" db0 = .error "Connection error" := by
  decide

/-- C5 (amended): in text_to_sql_agent.py a zero-row result yields the
fixed phrasing "No results found for your query." and in agent.py the
fixed refusal, both without invoking synthesis inference; sql_agent.py,
by contrast, still delegates the zero-row case to inference (its
counterexample). -/
theorem C5_zero_rows_no_inference (synth : Except String String)
    (asynth : String → String → Agent.ExecResult → String)
    (tst : TextToSQL.AgentState) (ast : Agent.AgentState)
    (h1 : tst.error = "") (h2 : tst.sql_result = [])
    (h3 : ast.sql_result = some (.rowsList [])) :
    TextToSQL.generate_response synth tst =
      ({ tst with final_response := "No results found for your query." }, false) ∧
    Agent.response_generation_node asynth ast =
      ({ ast with final_answer := Agent.idkAnswer }, false) := by
  constructor
  · simp [TextToSQL.generate_response, h1, h2]
  · simp [Agent.response_generation_node, h3]

/-- C5 witness: concrete zero-row states produce the fixed phrasings
with the inference flag false. -/
theorem C5_witness :
    ({ user_query := "q", sql_query := "SELECT Name FROM Artist WHERE ArtistId = -1",
       sql_result := [], final_response := "", error := "" } : TextToSQL.AgentState).error = "" ∧
    TextToSQL.generate_response (.ok "ignored")
        { user_query := "q", sql_query := "SELECT Name FROM Artist WHERE ArtistId = -1",
          sql_result := [], final_response := "", error := "" } =
      ({ user_query := "q", sql_query := "SELECT Name FROM Artist WHERE ArtistId = -1",
         sql_result := [], final_response := "No results found for your query.", error := "" }, false) ∧
    Agent.response_generation_node synthStub
        { messages := [], user_query := "q",
          sql_query := "SELECT Name FROM Artist WHERE ArtistId = -1",
          sql_result := some (.rowsList []), final_answer := "" } =
      ({ messages := [], user_query := "q",
         sql_query := "SELECT Name FROM Artist WHERE ArtistId = -1",
         sql_result := some (.rowsList []), final_answer := Agent.idkAnswer }, false) := by
  have h := C5_zero_rows_no_inference (.ok "ignored") synthStub
    { user_query := "q", sql_query := "SELECT Name FROM Artist WHERE ArtistId = -1",
      sql_result := [], final_response := "", error := "" }
    { messages := [], user_query := "q", sql_query := "SELECT Name FROM Artist WHERE ArtistId = -1",
      sql_result := some (.rowsList []), final_answer := "" }
    rfl rfl rfl
  exact ⟨rfl, h.1, h.2⟩

/-- C5 counterexample: in sql_agent.py a successfully executed zero-row
query is rendered as the literal "No results found." and then handed to
the synthesis inference call anyway, contradicting the claim that the
no-data phrasing is returned without invoking inference. -/
theorem C5_cex_sql_agent_inference_on_zero_rows :
    (SQLAgent.execute_sql_node chinookEngine saStateZero db0).1.sql_result = "No results found." ∧
    (SQLAgent.generate_response_node (.ok "The data shows nothing.")
        (SQLAgent.execute_sql_node chinookEngine saStateZero db0).1).map (fun p => p.2) =
      .ok true := by
  exact ⟨by decide, by decide⟩

/-- C6 (amended): there is no read-only transaction anywhere; the
executor of agent.py cannot mutate only because its prefix gate keeps
non-SELECT text away from the engine, while the executor of database.py
passes any statement through, and a mutation executed there is visible
in the stored dataset afterwards. -/
theorem C6_no_readonly_transaction (e : Engine)
    (hSel : ∀ q db, Agent.startsWithSelect q = true → (e q db).post = db)
    (q : String) (db : DbState) :
    (Agent.execute_query e q db).2.1 = db ∧
    (Database.execute_query chinookEngine "DELETE FROM Customer" (some db0)).2.1 ≠ some db0 :=
  ⟨execute_query_post e hSel q db, by decide⟩

/-- C6 witness: the agent.py executor leaves the state unchanged even
when handed a DELETE, because the gate rejects it. -/
theorem C6_witness :
    (Agent.execute_query chinookEngine "DELETE FROM Customer" db0).2.1 = db0 ∧
    (Database.execute_query chinookEngine "DELETE FROM Customer" (some db0)).2.1 ≠ some db0 :=
  C6_no_readonly_transaction chinookEngine chinookEngine_select_pure "DELETE FROM Customer" db0

/-- C6 counterexample: executing DELETE FROM Customer through the
executor of database.py empties the Customer table - the mutation is
visible in the database after the call returns, contradicting the
claim. -/
theorem C6_cex_delete_mutates_database :
    Database.execute_query chinookEngine "DELETE FROM Customer" (some db0) =
      (.ok [], some { customers := [], artists := artistRows }, ["DELETE FROM Customer"]) ∧
    some ({ customers := [], artists := artistRows } : DbState) ≠ some db0 := by
  exact ⟨by decide, by decide⟩

/-- C7 (amended): a synthesis inference failure in text_to_sql_agent.py
is caught and the run still terminates with a final answer, but that
answer is the template embedding the raw error text, not a generic
message. -/
theorem C7_synthesis_failure_embeds_error (err : String) (st : TextToSQL.AgentState)
    (h1 : st.error = "") (h2 : st.sql_result ≠ []) :
    TextToSQL.generate_response (.error err) st =
      ({ st with final_response := "Error generating response: " ++ err }, true) := by
  simp [TextToSQL.generate_response, h1, h2]

/-- C7 witness: a concrete synthesis failure over a non-empty result set
terminates with the templated answer. -/
theorem C7_witness :
    ttsStateRows.error = "" ∧ ttsStateRows.sql_result ≠ [] ∧
    TextToSQL.generate_response (.error "API timeout") ttsStateRows =
      ({ ttsStateRows with final_response := "Error generating response: API timeout" }, true) :=
  ⟨rfl, by decide, C7_synthesis_failure_embeds_error "API timeout" ttsStateRows rfl (by decide)⟩

/-- C7 counterexample: the final answer after a synthesis failure
contains the raw error text, contradicting the claim that it is never
surfaced to the caller. -/
theorem C7_cex_raw_error_text_surfaced :
    (TextToSQL.generate_response (.error "API timeout") ttsStateRows).1.final_response =
      "Error generating response: API timeout" ∧
    pyContains (TextToSQL.generate_response (.error "API timeout") ttsStateRows).1.final_response
      "API timeout" = true := by
  exact ⟨by decide, by decide⟩

/-- C8 (amended): when the engine-reported column names are pairwise
distinct and every fetched row has one value per column, each returned
row dictionary is exactly the column-value pairing in order and has
exactly as many entries as there are columns; with colliding column
names the dictionaries collapse (the counterexample). -/
theorem C8_invariant_distinct_columns (e : Engine) (q : String) (db : DbState)
    (cols : List String) (rows : List (List SqlValue))
    (h1 : Agent.startsWithSelect q = true)
    (h2 : e q db = ⟨.ok (some cols, rows), db⟩)
    (h3 : cols.Nodup)
    (h4 : ∀ r ∈ rows, r.length = cols.length) :
    (Agent.execute_query e q db).1 = .rowsList (rows.map (pyDictZip cols)) ∧
    ∀ r ∈ rows, pyDictZip cols r = cols.zip r ∧ (pyDictZip cols r).length = cols.length := by
  constructor
  · unfold Agent.execute_query
    simp [h1, h2]
  · intro r hr
    have hz := pyDictZip_eq_zip cols r h3 (le_of_eq (h4 r hr).symm)
    refine ⟨hz, ?_⟩
    rw [hz]
    simp [List.length_zip, h4 r hr]

/-- C8 witness: the artist SELECT satisfies the invariant. -/
theorem C8_witness :
    (Agent.startsWithSelect "SELECT Name FROM Artist" = true ∧
      (["Name"] : List String).Nodup ∧ (∀ r ∈ artistRows, r.length = 1)) ∧
    (Agent.execute_query chinookEngine "SELECT Name FROM Artist" db0).1 =
      .rowsList (artistRows.map (pyDictZip ["Name"])) ∧
    ∀ r ∈ artistRows, pyDictZip ["Name"] r = List.zip ["Name"] r ∧
      (pyDictZip ["Name"] r).length = 1 :=
  ⟨⟨by decide, by decide, by decide⟩,
   (C8_invariant_distinct_columns chinookEngine "SELECT Name FROM Artist" db0 ["Name"] artistRows
      (by decide) chinookEngine_artist_query (by decide) (by decide))⟩

/-- C8 counterexample: a query whose engine-reported column names
collide produces a row dictionary with one entry for two columns, the
first colliding value lost - the row does not have as many values as
there are column names, contradicting the claimed invariant. -/
theorem C8_cex_colliding_columns_collapse :
    (chinookEngine dupColQuery db0).result = .ok (some ["a", "a"], [[.vInt 1, .vInt 2]]) ∧
    Agent.execute_query chinookEngine dupColQuery db0 =
      (.rowsList [[("a", SqlValue.vInt 2)]], db0, [dupColQuery]) ∧
    ([("a", SqlValue.vInt 2)] : PyDict).length ≠ (["a", "a"] : List String).length := by
  exact ⟨by decide, by decide, by decide⟩

/-- C9: both answer() entry points are deterministic functions of the
question, the stubbed inference replies and the database state: a run
leaves the database state unchanged (for any engine that is pure on
SELECT-prefixed statements, as sqlite3 is), so invoking the pipeline a
second time afterwards yields the identical outcome, final answer
included. -/
theorem C9_deterministic_rerun (e : Engine)
    (hSel : ∀ q db, Agent.startsWithSelect q = true → (e q db).post = db)
    (gen : Except String Agent.SQLQuery)
    (synth : String → String → Agent.ExecResult → String)
    (tgen tsynth : Except String String) (q : String) (db : DbState) :
    runPostDb (Agent.run_query gen synth e q db) db = db ∧
    Agent.run_query gen synth e q (runPostDb (Agent.run_query gen synth e q db) db) =
      Agent.run_query gen synth e q db ∧
    ttsPostDb (TextToSQL.query tgen tsynth e q db) db = db ∧
    TextToSQL.query tgen tsynth e q
        (ttsPostDb (TextToSQL.query tgen tsynth e q db) db) =
      TextToSQL.query tgen tsynth e q db := by
  have h1 := run_query_post_db e hSel gen synth q db
  have h2 := tts_query_post_db tgen tsynth e q db
  exact ⟨h1, by rw [h1], h2, by rw [h2]⟩

/-- C9 witness: rerunning both pipelines on a concrete question with
concrete stub replies reproduces the first outcome exactly. -/
theorem C9_witness :
    runPostDb (Agent.run_query (.ok genArtists) synthStub chinookEngine
        "How many artists are there?" db0) db0 = db0 ∧
    Agent.run_query (.ok genArtists) synthStub chinookEngine "How many artists are there?"
        (runPostDb (Agent.run_query (.ok genArtists) synthStub chinookEngine
          "How many artists are there?" db0) db0) =
      Agent.run_query (.ok genArtists) synthStub chinookEngine
        "How many artists are there?" db0 ∧
    ttsPostDb (TextToSQL.query (.ok "SELECT Name FROM Artist") (.ok "fine") chinookEngine
        "How many artists are there?" db0) db0 = db0 ∧
    TextToSQL.query (.ok "SELECT Name FROM Artist") (.ok "fine") chinookEngine
        "How many artists are there?"
        (ttsPostDb (TextToSQL.query (.ok "SELECT Name FROM Artist") (.ok "fine") chinookEngine
          "How many artists are there?" db0) db0) =
      TextToSQL.query (.ok "SELECT Name FROM Artist") (.ok "fine") chinookEngine
        "How many artists are there?" db0 :=
  C9_deterministic_rerun chinookEngine chinookEngine_select_pure (.ok genArtists) synthStub
    (.ok "SELECT Name FROM Artist") (.ok "fine") "How many artists are there?" db0

/-- C10: ChinookDatabase.execute_query (agent.py) is total - for every
input it returns a value rather than raising - and its shape is as the
claim describes: a non-SELECT-prefixed input or an engine failure yields
the dictionary carrying the key "error", while a successful execution
yields a list with exactly one dictionary per fetched row, so callers
must branch on both shapes. -/
theorem C10_execute_query_total_shape (e : Engine) (q : String) (db : DbState) :
    (Agent.startsWithSelect q = false →
      Agent.execute_query e q db = (.errorDict "Only SELECT queries are allowed", db, [])) ∧
    (∀ m, Agent.startsWithSelect q = true → (e q db).result = .error m →
      (Agent.execute_query e q db).1 = .errorDict m) ∧
    (∀ cols rows, Agent.startsWithSelect q = true → (e q db).result = .ok (some cols, rows) →
      (Agent.execute_query e q db).1 = .rowsList (rows.map (pyDictZip cols)) ∧
      (rows.map (pyDictZip cols)).length = rows.length) := by
  refine ⟨?_, ?_, ?_⟩
  · intro h
    simp [Agent.execute_query, h]
  · intro m h hres
    unfold Agent.execute_query
    rcases hrep : e q db with ⟨res, post⟩
    rw [hrep] at hres
    simp only at hres
    subst hres
    simp [h]
  · intro cols rows h hres
    unfold Agent.execute_query
    rcases hrep : e q db with ⟨res, post⟩
    rw [hrep] at hres
    simp only at hres
    subst hres
    simp [h]

/-- C10 witness: the three branches at concrete inputs - a rejected
DELETE, a failing multi-statement execution, and a successful SELECT
with one dictionary per row. -/
theorem C10_witness :
    (Agent.startsWithSelect "DELETE FROM Customer" = false ∧
      Agent.execute_query chinookEngine "DELETE FROM Customer" db0 =
        (.errorDict "Only SELECT queries are allowed", db0, [])) ∧
    ((chinookEngine multiStmtQuery db0).result =
        .error "You can only execute one statement at a time." ∧
      (Agent.execute_query chinookEngine multiStmtQuery db0).1 =
        .errorDict "You can only execute one statement at a time.") ∧
    ((Agent.execute_query chinookEngine "SELECT Name FROM Artist" db0).1 =
        .rowsList (artistRows.map (pyDictZip ["Name"])) ∧
      (artistRows.map (pyDictZip ["Name"])).length = artistRows.length) :=
  ⟨⟨by decide, (C10_execute_query_total_shape chinookEngine "DELETE FROM Customer" db0).1 (by decide)⟩,
   ⟨by decide,
    (C10_execute_query_total_shape chinookEngine multiStmtQuery db0).2.1
      "You can only execute one statement at a time." (by decide) (by decide)⟩,
   (C10_execute_query_total_shape chinookEngine "SELECT Name FROM Artist" db0).2.2 ["Name"]
     artistRows (by decide) (by decide)⟩
